import Mathlib

/-!
Shallow embedding of the FraudProfile repository core
(`proposed_solution/fraud_profile.py` and `proposed_solution/anomaly_detector.py`).

Conventions used by the embedding:
* timestamps (Python `datetime` values) are rationals counting seconds, and
  `(a - b).total_seconds()` is `a - b`;
* Python floats are rationals (exact arithmetic stands in for IEEE floats);
* `datetime.now()` is an external input: every mutating operation takes an
  explicit `now` argument holding the wall-clock instant at which
  `_record_change` stamps the appended history entry;
* `np.std` returns `sqrtFn` applied to the population variance, where
  `sqrtFn : ℚ → ℚ` is an abstract parameter standing for the square root
  computed by numpy (the claims below need at most its nonnegativity);
* fallible operations (dict key lookup that can raise `KeyError`,
  `json.dump` that can raise `TypeError`, scoring with an unfitted scaler
  that raises `NotFittedError`) return `Option`/`Except`.
-/

/-- The four event kinds handled by `FraudProfile.update_with_*`. -/
inductive EventType where
  | login
  | transaction
  | session
  | feature_usage
deriving DecidableEq, Repr

/-- Login event payload (fraud_profile.py:103-105). `timestamp` is the parsed
`datetime.fromisoformat(login_event["timestamp"])`. -/
structure LoginEvent where
  timestamp : ℚ
  device_type : String
  ip_address : String
  geolocation : String
deriving DecidableEq, Repr

/-- Transaction event payload (fraud_profile.py:134-137). -/
structure TransactionEvent where
  timestamp : ℚ
  amount : ℚ
  merchant_id : String
deriving DecidableEq, Repr

/-- Session event payload (fraud_profile.py:161-164); its reference instant is
`start_time`, there is no separate `timestamp` field. -/
structure SessionEvent where
  start_time : ℚ
  session_duration : ℚ
deriving DecidableEq, Repr

/-- Feature-usage event payload (fraud_profile.py:185-188); `frequency` is
optional, `feature_event.get("frequency", 1.0)` defaults it to `1.0`. -/
structure FeatureUsageEvent where
  timestamp : ℚ
  feature_name : String
  frequency : Option ℚ
deriving DecidableEq, Repr

/-- A raw event payload, the `event_data` stored in a history record and the
argument of `update_with_*` / `detect_anomaly`. -/
inductive EventData where
  | login (e : LoginEvent)
  | transaction (e : TransactionEvent)
  | session (e : SessionEvent)
  | feature_usage (e : FeatureUsageEvent)
deriving DecidableEq, Repr

/-- One history record. `_record_change` (fraud_profile.py:357-366) appends
`{"timestamp": datetime.now().isoformat(), "event_type": ..., "event_data": ...}`:
the `timestamp` field is the wall clock at append time, not the event's own
timestamp. -/
structure Change where
  timestamp : ℚ
  event_type : EventType
  event_data : EventData
deriving DecidableEq, Repr

/-- The dictionary keys looked up on a stored history record by
`_update_velocity_metrics` (fraud_profile.py:213-306). -/
inductive HKey where
  | timestamp
  | event_type
  | event_data
  | start_time
deriving DecidableEq, Repr

/-- A value held in a history record's dictionary. -/
inductive ChangeVal where
  | time (t : ℚ)
  | etype (e : EventType)
  | data (d : EventData)
deriving DecidableEq, Repr

/-- Key lookup on a stored history record, i.e. Python `change[key]`.
The dict appended by `_record_change` (fraud_profile.py:359-365) has exactly
the keys `"timestamp"`, `"event_type"` and `"event_data"`; looking up
`"start_time"` (done by the session branch of `_update_velocity_metrics`,
fraud_profile.py:268 and 279) raises `KeyError`, modelled as `none`. -/
def Change.get? (c : Change) : HKey → Option ChangeVal
  | HKey.timestamp => some (ChangeVal.time c.timestamp)
  | HKey.event_type => some (ChangeVal.etype c.event_type)
  | HKey.event_data => some (ChangeVal.data c.event_data)
  | HKey.start_time => none

/-- `datetime.fromisoformat` applied to a stored dict value: succeeds only on
a time value. -/
def ChangeVal.asTime? : ChangeVal → Option ℚ
  | ChangeVal.time t => some t
  | _ => none

/-- `LoginMetrics` dataclass (fraud_profile.py:9-19), with its field defaults. -/
structure LoginMetrics where
  total_logins : ℕ := 0
  unique_devices : ℕ := 0
  unique_ips : ℕ := 0
  unique_locations : ℕ := 0
  avg_login_interval : ℚ := 0
  last_login_time : Option ℚ := none
  login_velocity_24h : ℕ := 0
  login_velocity_7d : ℕ := 0
  suspicious_login_count : ℕ := 0
deriving DecidableEq, Repr

/-- `TransactionMetrics` dataclass (fraud_profile.py:22-31). -/
structure TransactionMetrics where
  total_transactions : ℕ := 0
  total_amount : ℚ := 0
  avg_amount : ℚ := 0
  max_amount : ℚ := 0
  unique_merchants : ℕ := 0
  transaction_velocity_24h : ℕ := 0
  transaction_velocity_7d : ℕ := 0
  suspicious_transaction_count : ℕ := 0
deriving DecidableEq, Repr

/-- `SessionMetrics` dataclass (fraud_profile.py:34-40). -/
structure SessionMetrics where
  total_sessions : ℕ := 0
  avg_session_duration : ℚ := 0
  max_session_duration : ℚ := 0
  session_velocity_24h : ℕ := 0
  session_velocity_7d : ℕ := 0
deriving DecidableEq, Repr

/-- `FeatureUsageMetrics` dataclass (fraud_profile.py:43-51). -/
structure FeatureUsageMetrics where
  unique_features_used : ℕ := 0
  feature_usage_count : ℕ := 0
  total_frequency : ℚ := 0
  avg_feature_frequency : ℚ := 0
  std_feature_frequency : ℚ := 0
  feature_usage_velocity_24h : ℕ := 0
  feature_usage_velocity_7d : ℕ := 0
deriving DecidableEq, Repr

/-- `RiskScores` dataclass (fraud_profile.py:54-60). -/
structure RiskScores where
  login_risk : ℚ := 0
  transaction_risk : ℚ := 0
  session_risk : ℚ := 0
  feature_usage_risk : ℚ := 0
  overall_risk : ℚ := 0
deriving DecidableEq, Repr

/-- In-memory `FraudProfile` state (fraud_profile.py:63-73). -/
structure Profile where
  user_id : String
  login_metrics : LoginMetrics
  transaction_metrics : TransactionMetrics
  session_metrics : SessionMetrics
  feature_usage_metrics : FeatureUsageMetrics
  risk_scores : RiskScores
  last_updated : ℚ
  historical_changes : List Change
deriving DecidableEq, Repr

/-- A freshly constructed profile for which no snapshot file exists
(`__init__` + `_initialize_metrics` hitting `FileNotFoundError`,
fraud_profile.py:64-82): all metrics at their dataclass defaults, empty
history, `last_updated = datetime.now()` (the `now` argument). -/
def Profile.init (uid : String) (now : ℚ) : Profile :=
  { user_id := uid
    login_metrics := {}
    transaction_metrics := {}
    session_metrics := {}
    feature_usage_metrics := {}
    risk_scores := {}
    last_updated := now
    historical_changes := [] }

/-- One velocity-window scan of `_update_velocity_metrics`
(fraud_profile.py:213-306): the comprehension
`len([c for c in historical_changes if c["event_type"] == et and
(current_time - fromisoformat(c[key])).total_seconds() <= window])`.
The `and` short-circuits, so `c[key]` is only looked up on records of the
matching type; a missing key there raises `KeyError` (`none`). There is no
lower bound on the elapsed time, so records stamped after `ref` also count. -/
def velocityCount (hist : List Change) (et : EventType) (key : HKey)
    (ref window : ℚ) : Option ℕ :=
  match hist with
  | [] => some 0
  | c :: rest =>
    match velocityCount rest et key ref window with
    | none => none
    | some n =>
      if c.event_type = et then
        match (c.get? key).bind ChangeVal.asTime? with
        | none => none
        | some t => some (if ref - t ≤ window then n + 1 else n)
      else some n

/-- Closed form of `velocityCount` for the `"timestamp"` key, which every
stored record possesses. -/
def velocitySpec (hist : List Change) (et : EventType) (ref window : ℚ) : ℕ :=
  hist.countP (fun c => c.event_type == et && decide (ref - c.timestamp ≤ window))

/-- `_update_risk_scores` (fraud_profile.py:308-355): fixed weighted-linear
scores, each capped above by `min(1.0, ...)` and never capped below. -/
def computeRiskScores (lm : LoginMetrics) (tm : TransactionMetrics)
    (sm : SessionMetrics) (fm : FeatureUsageMetrics) : RiskScores :=
  let login_risk : ℚ := min 1
    (((lm.login_velocity_24h : ℚ) / 10) * 0.3
      + ((lm.unique_locations : ℚ) / 5) * 0.3
      + ((lm.unique_devices : ℚ) / 3) * 0.4)
  let transaction_risk : ℚ := min 1
    (((tm.transaction_velocity_24h : ℚ) / 20) * 0.3
      + (tm.avg_amount / 1000) * 0.4
      + ((tm.unique_merchants : ℚ) / 10) * 0.3)
  let session_risk : ℚ := min 1
    (((sm.session_velocity_24h : ℚ) / 15) * 0.4
      + (sm.avg_session_duration / 3600) * 0.6)
  let feature_usage_risk : ℚ := min 1
    (((fm.feature_usage_velocity_24h : ℚ) / 50) * 0.3
      + fm.std_feature_frequency * 0.4
      + (fm.avg_feature_frequency / 10) * 0.3)
  { login_risk := login_risk
    transaction_risk := transaction_risk
    session_risk := session_risk
    feature_usage_risk := feature_usage_risk
    overall_risk := login_risk * 0.3 + transaction_risk * 0.3
      + session_risk * 0.2 + feature_usage_risk * 0.2 }

/-- `update_with_login` (fraud_profile.py:103-132), minus the trailing
`_save_profile` I/O (modelled separately by `save_profile`). The unique
counters are `len(set([field]))` over the single current event. The velocity
scan runs before `_record_change` appends the event, and the appended record
is stamped with `now`, not with the event timestamp. -/
def update_with_login (p : Profile) (e : LoginEvent) (now : ℚ) : Option Profile :=
  (velocityCount p.historical_changes EventType.login HKey.timestamp
      e.timestamp 86400).bind fun v24 =>
  (velocityCount p.historical_changes EventType.login HKey.timestamp
      e.timestamp 604800).bind fun v7 =>
    let current_time := e.timestamp
    let total := p.login_metrics.total_logins + 1
    let avg : ℚ :=
      match p.login_metrics.last_login_time with
      | some t =>
        (p.login_metrics.avg_login_interval * ((total : ℚ) - 1)
          + (current_time - t)) / (total : ℚ)
      | none => p.login_metrics.avg_login_interval
    let lm : LoginMetrics :=
      { p.login_metrics with
          total_logins := total
          unique_devices := ([e.device_type].dedup).length
          unique_ips := ([e.ip_address].dedup).length
          unique_locations := ([e.geolocation].dedup).length
          avg_login_interval := avg
          last_login_time := some current_time
          login_velocity_24h := v24
          login_velocity_7d := v7 }
    some { p with
        login_metrics := lm
        historical_changes := p.historical_changes
          ++ [⟨now, EventType.login, EventData.login e⟩]
        last_updated := now
        risk_scores := computeRiskScores lm p.transaction_metrics
          p.session_metrics p.feature_usage_metrics }

/-- `update_with_transaction` (fraud_profile.py:134-159), minus the trailing
`_save_profile` I/O. -/
def update_with_transaction (p : Profile) (e : TransactionEvent) (now : ℚ) :
    Option Profile :=
  (velocityCount p.historical_changes EventType.transaction HKey.timestamp
      e.timestamp 86400).bind fun v24 =>
  (velocityCount p.historical_changes EventType.transaction HKey.timestamp
      e.timestamp 604800).bind fun v7 =>
    let amount := e.amount
    let total := p.transaction_metrics.total_transactions + 1
    let total_amount := p.transaction_metrics.total_amount + amount
    let tm : TransactionMetrics :=
      { p.transaction_metrics with
          total_transactions := total
          total_amount := total_amount
          avg_amount := total_amount / (total : ℚ)
          max_amount := max p.transaction_metrics.max_amount amount
          unique_merchants := ([e.merchant_id].dedup).length
          transaction_velocity_24h := v24
          transaction_velocity_7d := v7 }
    some { p with
        transaction_metrics := tm
        historical_changes := p.historical_changes
          ++ [⟨now, EventType.transaction, EventData.transaction e⟩]
        last_updated := now
        risk_scores := computeRiskScores p.login_metrics tm
          p.session_metrics p.feature_usage_metrics }

/-- `update_with_session` (fraud_profile.py:161-183), minus the trailing
`_save_profile` I/O. Its velocity scan looks up `change["start_time"]`
(fraud_profile.py:268,279) on stored session records, a key those records do
not have, so it fails (`none`) whenever the history already holds a session
record. -/
def update_with_session (p : Profile) (e : SessionEvent) (now : ℚ) :
    Option Profile :=
  (velocityCount p.historical_changes EventType.session HKey.start_time
      e.start_time 86400).bind fun v24 =>
  (velocityCount p.historical_changes EventType.session HKey.start_time
      e.start_time 604800).bind fun v7 =>
    let duration := e.session_duration
    let total := p.session_metrics.total_sessions + 1
    let sm : SessionMetrics :=
      { p.session_metrics with
          total_sessions := total
          avg_session_duration :=
            (p.session_metrics.avg_session_duration * ((total : ℚ) - 1)
              + duration) / (total : ℚ)
          max_session_duration :=
            max p.session_metrics.max_session_duration duration
          session_velocity_24h := v24
          session_velocity_7d := v7 }
    some { p with
        session_metrics := sm
        historical_changes := p.historical_changes
          ++ [⟨now, EventType.session, EventData.session e⟩]
        last_updated := now
        risk_scores := computeRiskScores p.login_metrics
          p.transaction_metrics sm p.feature_usage_metrics }

/-- `change["event_data"].get("frequency", 1.0)` (fraud_profile.py:199):
`.get` with a default never raises, and a record whose `event_data` is not a
feature-usage payload simply lacks the key and yields the default `1.0`. -/
def change_frequency (c : Change) : ℚ :=
  match c.event_data with
  | EventData.feature_usage fe => fe.frequency.getD 1
  | _ => 1

/-- Population variance, the square of `np.std` (default `ddof=0`). -/
def popVariance (l : List ℚ) : ℚ :=
  let n : ℚ := l.length
  let m : ℚ := l.sum / n
  (l.map (fun x => (x - m) ^ 2)).sum / n

/-- `update_with_feature_usage` (fraud_profile.py:185-211), minus the trailing
`_save_profile` I/O. `sqrtFn` abstracts the square root inside `np.std`, so
`std_feature_frequency` becomes `sqrtFn` of the population variance of all
feature-usage frequencies in history plus the current one (zero when fewer
than two samples exist). `unique_features_used` is never written by the code. -/
def update_with_feature_usage (sqrtFn : ℚ → ℚ) (p : Profile)
    (e : FeatureUsageEvent) (now : ℚ) : Option Profile :=
  (velocityCount p.historical_changes EventType.feature_usage HKey.timestamp
      e.timestamp 86400).bind fun v24 =>
  (velocityCount p.historical_changes EventType.feature_usage HKey.timestamp
      e.timestamp 604800).bind fun v7 =>
    let frequency := e.frequency.getD 1
    let count := p.feature_usage_metrics.feature_usage_count + 1
    let total_frequency := p.feature_usage_metrics.total_frequency + frequency
    let freq_values :=
      ((p.historical_changes.filter
          (fun c => c.event_type == EventType.feature_usage)).map
        change_frequency) ++ [frequency]
    let fm : FeatureUsageMetrics :=
      { p.feature_usage_metrics with
          feature_usage_count := count
          total_frequency := total_frequency
          avg_feature_frequency := total_frequency / (count : ℚ)
          std_feature_frequency :=
            if 1 < freq_values.length then sqrtFn (popVariance freq_values)
            else 0
          feature_usage_velocity_24h := v24
          feature_usage_velocity_7d := v7 }
    some { p with
        feature_usage_metrics := fm
        historical_changes := p.historical_changes
          ++ [⟨now, EventType.feature_usage, EventData.feature_usage e⟩]
        last_updated := now
        risk_scores := computeRiskScores p.login_metrics
          p.transaction_metrics p.session_metrics fm }

/-- Dispatch one raw event (paired with the wall-clock instant `now` at which
it is processed) to the matching `update_with_*` method. -/
def processEvent (sqrtFn : ℚ → ℚ) (p : Profile) : EventData × ℚ → Option Profile
  | (EventData.login e, now) => update_with_login p e now
  | (EventData.transaction e, now) => update_with_transaction p e now
  | (EventData.session e, now) => update_with_session p e now
  | (EventData.feature_usage e, now) => update_with_feature_usage sqrtFn p e now

/-- Process a sequence of events in order; `none` as soon as one update
raises. -/
def processEvents (sqrtFn : ℚ → ℚ) (p : Profile) :
    List (EventData × ℚ) → Option Profile
  | [] => some p
  | x :: rest =>
    (processEvent sqrtFn p x).bind fun p' => processEvents sqrtFn p' rest

/-- The persisted snapshot layout written by `_save_profile`
(fraud_profile.py:374-382) and read back by `_load_from_dict`
(fraud_profile.py:84-101). -/
structure SavedProfile where
  login_metrics : LoginMetrics
  transaction_metrics : TransactionMetrics
  session_metrics : SessionMetrics
  feature_usage_metrics : FeatureUsageMetrics
  risk_scores : RiskScores
  last_updated : ℚ
  historical_changes : List Change
deriving DecidableEq, Repr

/-- Failure of `_save_profile`. -/
inductive SaveErr where
  | datetimeNotSerializable
deriving DecidableEq, Repr

/-- `_save_profile` (fraud_profile.py:368-385). `json.dump` with the default
encoder raises `TypeError` on any `datetime` object; the serialized record
contains one: `login_metrics.last_login_time` is stored by `update_with_login`
as a `datetime` and never converted (unlike `last_updated`, which is passed
through `.isoformat()` at fraud_profile.py:380, and the history stamps, which
`_record_change` stores as `.isoformat()` strings). So the dump fails exactly
when `last_login_time` is set. -/
def save_profile (p : Profile) : Except SaveErr SavedProfile :=
  match p.login_metrics.last_login_time with
  | some _ => Except.error SaveErr.datetimeNotSerializable
  | none =>
    Except.ok
      { login_metrics := p.login_metrics
        transaction_metrics := p.transaction_metrics
        session_metrics := p.session_metrics
        feature_usage_metrics := p.feature_usage_metrics
        risk_scores := p.risk_scores
        last_updated := p.last_updated
        historical_changes := p.historical_changes }

/-- `_load_from_dict` (fraud_profile.py:84-101): rebuild a profile from a
persisted snapshot. -/
def load_from_dict (uid : String) (d : SavedProfile) : Profile :=
  { user_id := uid
    login_metrics := d.login_metrics
    transaction_metrics := d.transaction_metrics
    session_metrics := d.session_metrics
    feature_usage_metrics := d.feature_usage_metrics
    risk_scores := d.risk_scores
    last_updated := d.last_updated
    historical_changes := d.historical_changes }

/-- Insert into a sorted list, ascending. -/
def insertSorted (x : ℚ) : List ℚ → List ℚ
  | [] => [x]
  | y :: ys => if x ≤ y then x :: y :: ys else y :: insertSorted x ys

/-- Ascending sort, as performed internally by `np.percentile`. -/
def sortRat (l : List ℚ) : List ℚ := l.foldr insertSorted []

/-- `np.percentile(a, q)` with the default linear interpolation: sort, take
the fractional index `q/100 * (n-1)` and interpolate between its neighbours.
On a one-element array every percentile is that element. -/
def np_percentile (l : List ℚ) (q : ℚ) : ℚ :=
  let s := sortRat l
  if s.isEmpty then 0
  else
    let n := s.length
    let h := q / 100 * ((n : ℚ) - 1)
    let i := (⌊h⌋).toNat
    let lo := s.getD i 0
    let hi := s.getD (min (i + 1) (n - 1)) 0
    lo + (h - (⌊h⌋ : ℚ)) * (hi - lo)

/-- The risk-factor labels produced by `_generate_explanation`
(anomaly_detector.py:172-234); each constructor stands for the corresponding
English string in the Python source. -/
inductive RiskFactor where
  | highLoginVelocity
  | multipleLocations
  | multipleDevices
  | highTransactionVelocity
  | largeAmount
  | unusualMerchant
  | highFeatureUsageVelocity
  | unusualNumberOfFeatures
  | abnormalUsageFrequency
  | highTotalFrequency
  | highSessionVelocity
  | longDuration
  | multipleSessions
deriving DecidableEq, Repr

/-- Explanation record returned by `_generate_explanation`: the raw feature
values (in the branch's field order), the anomaly score, and the
threshold-triggered risk-factor slots (`None` when untriggered). -/
structure Explanation where
  values : List ℚ
  anomaly_score : ℚ
  risk_factors : List (Option RiskFactor)
deriving DecidableEq, Repr

/-- `_generate_explanation` (anomaly_detector.py:172-234). -/
def generate_explanation (et : EventType) (features : List ℚ) (score : ℚ) :
    Explanation :=
  match et with
  | EventType.login =>
    { values := [features.getD 0 0, features.getD 1 0, features.getD 2 0,
        features.getD 3 0]
      anomaly_score := score
      risk_factors :=
        [if 10 < features.getD 0 0 then some RiskFactor.highLoginVelocity else none,
         if 3 < features.getD 1 0 then some RiskFactor.multipleLocations else none,
         if 2 < features.getD 2 0 then some RiskFactor.multipleDevices else none] }
  | EventType.transaction =>
    { values := [features.getD 0 0, features.getD 1 0, features.getD 2 0,
        features.getD 3 0]
      anomaly_score := score
      risk_factors :=
        [if 20 < features.getD 0 0 then some RiskFactor.highTransactionVelocity else none,
         if features.getD 2 0 * 2 < features.getD 1 0 then some RiskFactor.largeAmount else none,
         if 5 < features.getD 3 0 then some RiskFactor.unusualMerchant else none] }
  | EventType.feature_usage =>
    { values := [features.getD 0 0, features.getD 1 0, features.getD 2 0,
        features.getD 3 0, features.getD 4 0]
      anomaly_score := score
      risk_factors :=
        [if 50 < features.getD 0 0 then some RiskFactor.highFeatureUsageVelocity else none,
         if 10 < features.getD 1 0 then some RiskFactor.unusualNumberOfFeatures else none,
         if features.getD 2 0 < features.getD 3 0 then some RiskFactor.abnormalUsageFrequency else none,
         if 100 < features.getD 4 0 then some RiskFactor.highTotalFrequency else none] }
  | EventType.session =>
    { values := [features.getD 0 0, features.getD 1 0, features.getD 2 0,
        features.getD 3 0]
      anomaly_score := score
      risk_factors :=
        [if 15 < features.getD 0 0 then some RiskFactor.highSessionVelocity else none,
         if 3600 < features.getD 1 0 then some RiskFactor.longDuration else none,
         if 10 < features.getD 3 0 then some RiskFactor.multipleSessions else none] }

/-- `_extract_features` (anomaly_detector.py:138-170): the live feature
vector, from the pre-update profile plus, for transaction/session, one field
looked up on the raw event dict (`event_data["amount"]`,
`event_data["session_duration"]`) — a lookup that raises `KeyError` when the
payload has no such key. -/
def extract_features (p : Profile) (et : EventType) (ed : EventData) :
    Option (List ℚ) :=
  match et with
  | EventType.login =>
    some [(p.login_metrics.login_velocity_24h : ℚ),
      (p.login_metrics.unique_locations : ℚ),
      (p.login_metrics.unique_devices : ℚ),
      p.login_metrics.avg_login_interval]
  | EventType.transaction =>
    match ed with
    | EventData.transaction e =>
      some [(p.transaction_metrics.transaction_velocity_24h : ℚ),
        e.amount,
        p.transaction_metrics.avg_amount,
        (p.transaction_metrics.unique_merchants : ℚ)]
    | _ => none
  | EventType.feature_usage =>
    some [(p.feature_usage_metrics.feature_usage_velocity_24h : ℚ),
      (p.feature_usage_metrics.unique_features_used : ℚ),
      p.feature_usage_metrics.avg_feature_frequency,
      p.feature_usage_metrics.std_feature_frequency,
      p.feature_usage_metrics.total_frequency]
  | EventType.session =>
    match ed with
    | EventData.session e =>
      some [(p.session_metrics.session_velocity_24h : ℚ),
        e.session_duration,
        p.session_metrics.avg_session_duration,
        (p.session_metrics.total_sessions : ℚ)]
    | _ => none

/-- Training row built from a persisted snapshot for the login model
(anomaly_detector.py:53-61). -/
def login_train_row (sp : SavedProfile) : List ℚ :=
  [(sp.login_metrics.login_velocity_24h : ℚ),
   (sp.login_metrics.unique_locations : ℚ),
   (sp.login_metrics.unique_devices : ℚ),
   sp.login_metrics.avg_login_interval]

/-- Training row built from a persisted snapshot for the transaction model
(anomaly_detector.py:63-74): positions 1 and 2 hold `avg_amount` and
`max_amount`. -/
def transaction_train_row (sp : SavedProfile) : List ℚ :=
  [(sp.transaction_metrics.transaction_velocity_24h : ℚ),
   sp.transaction_metrics.avg_amount,
   sp.transaction_metrics.max_amount,
   (sp.transaction_metrics.unique_merchants : ℚ)]

/-- Training row built from a persisted snapshot for the session model
(anomaly_detector.py:76-85). -/
def session_train_row (sp : SavedProfile) : List ℚ :=
  [(sp.session_metrics.session_velocity_24h : ℚ),
   sp.session_metrics.avg_session_duration,
   sp.session_metrics.max_session_duration,
   (sp.session_metrics.total_sessions : ℚ)]

/-- Training row built from a persisted snapshot for the feature-usage model
(anomaly_detector.py:87-97). -/
def feature_usage_train_row (sp : SavedProfile) : List ℚ :=
  [(sp.feature_usage_metrics.feature_usage_velocity_24h : ℚ),
   (sp.feature_usage_metrics.unique_features_used : ℚ),
   sp.feature_usage_metrics.avg_feature_frequency,
   sp.feature_usage_metrics.std_feature_frequency,
   sp.feature_usage_metrics.total_frequency]

/-- The anomaly model bank: per event type, `some rows` when the scaler and
outlier model for that type were fitted on the training rows `rows`, `none`
when they were never fitted. -/
structure Bank where
  login_fit : Option (List (List ℚ))
  transaction_fit : Option (List (List ℚ))
  session_fit : Option (List (List ℚ))
  feature_usage_fit : Option (List (List ℚ))
deriving DecidableEq, Repr

/-- `self.scalers[event_type]` / `self.models[event_type]` fit state. -/
def Bank.fit (b : Bank) : EventType → Option (List (List ℚ))
  | EventType.login => b.login_fit
  | EventType.transaction => b.transaction_fit
  | EventType.session => b.session_fit
  | EventType.feature_usage => b.feature_usage_fit

/-- `_initialize_models` (anomaly_detector.py:30-109): collect one training
row per event type from every persisted snapshot and fit each per-type scaler
and model only when its row list is nonempty (`if all_features[event_type]:`,
anomaly_detector.py:101); with zero snapshots nothing is fitted. -/
def initialize_models (snapshots : List SavedProfile) : Bank :=
  let logins := snapshots.map login_train_row
  let transactions := snapshots.map transaction_train_row
  let sessions := snapshots.map session_train_row
  let features := snapshots.map feature_usage_train_row
  { login_fit := if logins.isEmpty then none else some logins
    transaction_fit := if transactions.isEmpty then none else some transactions
    session_fit := if sessions.isEmpty then none else some sessions
    feature_usage_fit := if features.isEmpty then none else some features }

/-- Failure of `detect_anomaly`. -/
inductive ScoreErr where
  /-- `KeyError` raised inside `_extract_features` on a payload missing the
  field read live. -/
  | keyError
  /-- sklearn `NotFittedError` raised by `scaler.transform` when the bank was
  never fitted for this event type — the "model unavailable" failure. -/
  | notFitted
  /-- `AttributeError` raised when accessing `.score_samples` on the
  transaction model: `LocalOutlierFactor(n_neighbors=20, contamination=0.1)`
  (anomaly_detector.py:18) keeps the default `novelty=False`, under which
  sklearn's `available_if` guard hides `score_samples`, so it cannot score
  live data. -/
  | attributeError
deriving DecidableEq, Repr

/-- Whether `self.models[event_type].score_samples` is available
(anomaly_detector.py:16-21): the login/session/feature-usage models are
`IsolationForest`, which exposes `score_samples`; the transaction model is
`LocalOutlierFactor` with the default `novelty=False`, whose `score_samples`
is hidden by `available_if` and raises `AttributeError` when accessed. -/
def has_score_samples : EventType → Bool
  | EventType.transaction => false
  | _ => true

/-- `detect_anomaly` (anomaly_detector.py:111-136). `score_samples` abstracts
the composite `model.score_samples(scaler.transform([features]))[0]` of the
fitted scaler and outlier model, a pure function of the extracted features,
defined only for the model kinds that expose `score_samples`
(`has_score_samples`): a fitted-bank transaction call raises
`AttributeError` at the `.score_samples` access (anomaly_detector.py:127)
instead of producing a score. For login the raw score is compared against
the 10th percentile of the one-element score array; otherwise the negated
score is compared against the 90th percentile of the one-element negated
score array. Confidence is `abs(score)`. -/
def detect_anomaly (b : Bank) (score_samples : EventType → List ℚ → ℚ)
    (p : Profile) (et : EventType) (ed : EventData) :
    Except ScoreErr (Bool × ℚ × Explanation) :=
  (extract_features p et ed).elim (Except.error ScoreErr.keyError) fun features =>
    (b.fit et).elim (Except.error ScoreErr.notFitted) fun _ =>
      if et = EventType.login then
        let score := score_samples et features
        let is_anomaly :=
          decide (score < np_percentile [score_samples et features] 10)
        Except.ok (is_anomaly, |score|, generate_explanation et features score)
      else
        if has_score_samples et then
          let score := -(score_samples et features)
          let is_anomaly :=
            decide (np_percentile ([score_samples et features].map Neg.neg) 90
              < score)
          Except.ok (is_anomaly, |score|, generate_explanation et features score)
        else Except.error ScoreErr.attributeError

/-- Event-field nonnegativity: the amount of a transaction, the duration of a
session and the (defaulted) frequency of a feature usage are nonnegative;
login events carry no magnitude. -/
def eventOK : EventData → Bool
  | EventData.login _ => true
  | EventData.transaction e => decide (0 ≤ e.amount)
  | EventData.session e => decide (0 ≤ e.session_duration)
  | EventData.feature_usage e => decide (0 ≤ e.frequency.getD 1)

/-- Nonnegativity invariant on the metrics feeding the risk scores. -/
def metricsOK (p : Profile) : Prop :=
  0 ≤ p.transaction_metrics.total_amount
    ∧ 0 ≤ p.transaction_metrics.avg_amount
    ∧ 0 ≤ p.session_metrics.avg_session_duration
    ∧ 0 ≤ p.feature_usage_metrics.total_frequency
    ∧ 0 ≤ p.feature_usage_metrics.avg_feature_frequency
    ∧ 0 ≤ p.feature_usage_metrics.std_feature_frequency

/-- All five risk scores lie in the unit interval. -/
def riskOK (p : Profile) : Prop :=
  (0 ≤ p.risk_scores.login_risk ∧ p.risk_scores.login_risk ≤ 1)
    ∧ (0 ≤ p.risk_scores.transaction_risk ∧ p.risk_scores.transaction_risk ≤ 1)
    ∧ (0 ≤ p.risk_scores.session_risk ∧ p.risk_scores.session_risk ≤ 1)
    ∧ (0 ≤ p.risk_scores.feature_usage_risk ∧ p.risk_scores.feature_usage_risk ≤ 1)
    ∧ (0 ≤ p.risk_scores.overall_risk ∧ p.risk_scores.overall_risk ≤ 1)

/-- The velocity count described by the claim wording: same-type history
entries, the event being processed included, whose own timestamp lies within
`window` seconds before the reference time. Modelled from the claim, for
comparison against the velocity the code actually stores. -/
def claimVelocity (hist : List Change) (et : EventType) (ref window : ℚ) : ℕ :=
  hist.countP (fun c => c.event_type == et
    && decide (0 ≤ ref - c.timestamp) && decide (ref - c.timestamp ≤ window))

/-! Concrete sample data used by the scenario theorems, counterexamples and
witnesses below. -/

/-- Sample account id. -/
def sampleUid : String := "user1"

/-- Device field of the §8 login scenario. -/
def sampleDevice : String := "Mobile"

/-- IP field of the §8 login scenario. -/
def sampleIp : String := "1.1.1.1"

/-- Geolocation field of the §8 login scenario. -/
def sampleGeo : String := "10,10"

/-- First scenario login, at t = 0. -/
def sampleLogin1 : LoginEvent := ⟨0, sampleDevice, sampleIp, sampleGeo⟩

/-- Second scenario login, at t = 600 s, same fields. -/
def sampleLogin2 : LoginEvent := ⟨600, sampleDevice, sampleIp, sampleGeo⟩

/-- The §8 login scenario run: both logins applied to a fresh profile, each
processed at a wall clock equal to its own event timestamp. -/
def sampleLoginRun : Option Profile :=
  (update_with_login (Profile.init sampleUid 0) sampleLogin1 0).bind
    (fun p => update_with_login p sampleLogin2 600)

/-- Sample merchant id. -/
def sampleMerchant : String := "merchantA"

/-- A transaction with a large negative amount. -/
def sampleTxNeg : TransactionEvent := ⟨0, -10000, sampleMerchant⟩

/-- A transaction of amount −5. -/
def sampleTxNeg5 : TransactionEvent := ⟨0, -5, sampleMerchant⟩

/-- A transaction of amount 2. -/
def sampleTx2 : TransactionEvent := ⟨0, 2, sampleMerchant⟩

/-- A transaction of amount 4. -/
def sampleTx4 : TransactionEvent := ⟨0, 4, sampleMerchant⟩

/-- A live transaction of amount 100. -/
def sampleTx100 : TransactionEvent := ⟨0, 100, sampleMerchant⟩

/-- A session of duration 100 s starting at t = 0. -/
def sampleSession1 : SessionEvent := ⟨0, 100⟩

/-- A session of duration 100 s starting at t = 600 s. -/
def sampleSession2 : SessionEvent := ⟨600, 100⟩

/-- A feature-usage event with no explicit frequency. -/
def sampleFeature1 : FeatureUsageEvent := ⟨0, "featureX", none⟩

/-- One event of each kind, processed at wall clock 0. -/
def sampleEvents : List (EventData × ℚ) :=
  [(EventData.login sampleLogin1, 0), (EventData.transaction sampleTx2, 0),
   (EventData.session sampleSession1, 0),
   (EventData.feature_usage sampleFeature1, 0)]

/-- A bank fitted (on one row per type), standing for the Ready state. -/
def sampleBank : Bank :=
  ⟨some [[0, 0, 0, 0]], some [[0, 0, 0, 0]], some [[0, 0, 0, 0]],
   some [[0, 0, 0, 0, 0]]⟩

/-- A concrete stand-in for the fitted models' composite scoring function:
every sample gets the raw score 5 (a non-degenerate, nonzero score). -/
def sampleScore : EventType → List ℚ → ℚ := fun _ _ => 5

/-- The login feature vector extracted from a fresh profile. -/
def sampleLoginFeatures : List ℚ := [0, 0, 0, 0]

/-! Helper lemmas. -/

/-- On the `"timestamp"` key, which every stored record has, the velocity scan
never raises and counts exactly the same-type records whose recorded stamp is
at most `window` seconds before (or any amount after) the reference time. -/
theorem velocityCount_timestamp :
    ∀ (hist : List Change) (et : EventType) (ref w : ℚ),
    velocityCount hist et HKey.timestamp ref w = some (velocitySpec hist et ref w)
  | [], _, _, _ => rfl
  | c :: rest, et, ref, w => by
    rw [velocityCount, velocityCount_timestamp rest et ref w]
    simp only [velocitySpec, List.countP_cons, Change.get?, Option.some_bind,
      ChangeVal.asTime?]
    by_cases h : c.event_type = et
    · by_cases h2 : ref - c.timestamp ≤ w
      · simp [h, h2]
      · simp [h, h2]
    · simp [h]

/-- Every percentile of a one-element array is its element. -/
theorem np_percentile_singleton (x q : ℚ) : np_percentile [x] q = x := by
  simp [np_percentile, sortRat, insertSorted]

/-- The weighted-linear scores of `_update_risk_scores` land in `[0,1]` as
soon as the averaged magnitudes feeding them are nonnegative: every other
input is a count. Without those nonnegativity assumptions only the upper cap
holds, since `min(1.0, ...)` never clamps from below. -/
theorem computeRiskScores_ok (lm : LoginMetrics) (tm : TransactionMetrics)
    (sm : SessionMetrics) (fm : FeatureUsageMetrics)
    (h1 : 0 ≤ tm.avg_amount) (h2 : 0 ≤ sm.avg_session_duration)
    (h3 : 0 ≤ fm.std_feature_frequency) (h4 : 0 ≤ fm.avg_feature_frequency) :
    (0 ≤ (computeRiskScores lm tm sm fm).login_risk
        ∧ (computeRiskScores lm tm sm fm).login_risk ≤ 1)
      ∧ (0 ≤ (computeRiskScores lm tm sm fm).transaction_risk
        ∧ (computeRiskScores lm tm sm fm).transaction_risk ≤ 1)
      ∧ (0 ≤ (computeRiskScores lm tm sm fm).session_risk
        ∧ (computeRiskScores lm tm sm fm).session_risk ≤ 1)
      ∧ (0 ≤ (computeRiskScores lm tm sm fm).feature_usage_risk
        ∧ (computeRiskScores lm tm sm fm).feature_usage_risk ≤ 1)
      ∧ (0 ≤ (computeRiskScores lm tm sm fm).overall_risk
        ∧ (computeRiskScores lm tm sm fm).overall_risk ≤ 1) := by
  have unit : ∀ a : ℚ, 0 ≤ a → 0 ≤ min 1 a ∧ min 1 a ≤ 1 :=
    fun a ha => ⟨le_min (by norm_num) ha, min_le_left _ _⟩
  have hlv : (0 : ℚ) ≤ (lm.login_velocity_24h : ℚ) := Nat.cast_nonneg _
  have hll : (0 : ℚ) ≤ (lm.unique_locations : ℚ) := Nat.cast_nonneg _
  have hld : (0 : ℚ) ≤ (lm.unique_devices : ℚ) := Nat.cast_nonneg _
  have htv : (0 : ℚ) ≤ (tm.transaction_velocity_24h : ℚ) := Nat.cast_nonneg _
  have htm : (0 : ℚ) ≤ (tm.unique_merchants : ℚ) := Nat.cast_nonneg _
  have hsv : (0 : ℚ) ≤ (sm.session_velocity_24h : ℚ) := Nat.cast_nonneg _
  have hfv : (0 : ℚ) ≤ (fm.feature_usage_velocity_24h : ℚ) := Nat.cast_nonneg _
  have hL := unit (((lm.login_velocity_24h : ℚ) / 10) * 0.3
      + ((lm.unique_locations : ℚ) / 5) * 0.3
      + ((lm.unique_devices : ℚ) / 3) * 0.4) (by nlinarith)
  have hT := unit ((((tm.transaction_velocity_24h : ℚ)) / 20) * 0.3
      + (tm.avg_amount / 1000) * 0.4 + ((tm.unique_merchants : ℚ) / 10) * 0.3)
    (by nlinarith)
  have hS := unit (((sm.session_velocity_24h : ℚ) / 15) * 0.4
      + (sm.avg_session_duration / 3600) * 0.6) (by nlinarith)
  have hF := unit (((fm.feature_usage_velocity_24h : ℚ) / 50) * 0.3
      + fm.std_feature_frequency * 0.4 + (fm.avg_feature_frequency / 10) * 0.3)
    (by nlinarith)
  simp only [computeRiskScores]
  refine ⟨hL, hT, hS, hF, ?_, ?_⟩
  · linarith [hL.1, hT.1, hS.1, hF.1]
  · linarith [hL.2, hT.2, hS.2, hF.2]

/-- A login update keeps the metric nonnegativity invariant (it touches no
averaged magnitude) and recomputes all risk scores into `[0,1]`. -/
theorem update_with_login_ok (p : Profile) (e : LoginEvent) (now : ℚ)
    (p' : Profile) (hm : metricsOK p) (h : update_with_login p e now = some p') :
    metricsOK p' ∧ riskOK p' := by
  rw [update_with_login, velocityCount_timestamp, velocityCount_timestamp] at h
  simp only [Option.some_bind, Option.some.injEq] at h
  subst h
  obtain ⟨ha1, ha2, ha3, ha4, ha5, ha6⟩ := hm
  exact ⟨⟨ha1, ha2, ha3, ha4, ha5, ha6⟩,
    computeRiskScores_ok _ p.transaction_metrics p.session_metrics
      p.feature_usage_metrics ha2 ha3 ha6 ha5⟩

/-- A transaction update with a nonnegative amount keeps the metric
nonnegativity invariant and recomputes all risk scores into `[0,1]`. -/
theorem update_with_transaction_ok (p : Profile) (e : TransactionEvent)
    (now : ℚ) (p' : Profile) (hm : metricsOK p) (hamt : 0 ≤ e.amount)
    (h : update_with_transaction p e now = some p') :
    metricsOK p' ∧ riskOK p' := by
  rw [update_with_transaction, velocityCount_timestamp, velocityCount_timestamp] at h
  simp only [Option.some_bind, Option.some.injEq] at h
  subst h
  obtain ⟨ha1, ha2, ha3, ha4, ha5, ha6⟩ := hm
  have htot : 0 ≤ p.transaction_metrics.total_amount + e.amount :=
    add_nonneg ha1 hamt
  have havg : (0 : ℚ) ≤ (p.transaction_metrics.total_amount + e.amount)
      / ((p.transaction_metrics.total_transactions + 1 : ℕ) : ℚ) :=
    div_nonneg htot (Nat.cast_nonneg _)
  exact ⟨⟨htot, havg, ha3, ha4, ha5, ha6⟩,
    computeRiskScores_ok p.login_metrics _ p.session_metrics
      p.feature_usage_metrics havg ha3 ha6 ha5⟩

/-- A session update with a nonnegative duration, when it does not raise,
keeps the metric nonnegativity invariant and recomputes all risk scores into
`[0,1]`. -/
theorem update_with_session_ok (p : Profile) (e : SessionEvent) (now : ℚ)
    (p' : Profile) (hm : metricsOK p) (hdur : 0 ≤ e.session_duration)
    (h : update_with_session p e now = some p') :
    metricsOK p' ∧ riskOK p' := by
  rw [update_with_session] at h
  rcases hv1 : velocityCount p.historical_changes EventType.session
      HKey.start_time e.start_time 86400 with _ | v24
  · rw [hv1] at h; simp at h
  rcases hv2 : velocityCount p.historical_changes EventType.session
      HKey.start_time e.start_time 604800 with _ | v7
  · rw [hv1, hv2] at h; simp at h
  rw [hv1, hv2] at h
  simp only [Option.some_bind, Option.some.injEq] at h
  subst h
  obtain ⟨ha1, ha2, ha3, ha4, ha5, ha6⟩ := hm
  have hn : (0 : ℚ) ≤ ((p.session_metrics.total_sessions + 1 : ℕ) : ℚ) - 1 := by
    push_cast
    linarith [Nat.cast_nonneg (α := ℚ) p.session_metrics.total_sessions]
  have havg : (0 : ℚ) ≤ (p.session_metrics.avg_session_duration
        * (((p.session_metrics.total_sessions + 1 : ℕ) : ℚ) - 1)
        + e.session_duration)
      / ((p.session_metrics.total_sessions + 1 : ℕ) : ℚ) :=
    div_nonneg (add_nonneg (mul_nonneg ha3 hn) hdur) (Nat.cast_nonneg _)
  exact ⟨⟨ha1, ha2, havg, ha4, ha5, ha6⟩,
    computeRiskScores_ok p.login_metrics p.transaction_metrics _
      p.feature_usage_metrics ha2 havg ha6 ha5⟩

/-- A feature-usage update with a nonnegative (defaulted) frequency keeps the
metric nonnegativity invariant — given that `sqrtFn` (the square root inside
`np.std`) is nonnegative — and recomputes all risk scores into `[0,1]`. -/
theorem update_with_feature_usage_ok (sqrtFn : ℚ → ℚ)
    (hs : ∀ q, 0 ≤ sqrtFn q) (p : Profile) (e : FeatureUsageEvent) (now : ℚ)
    (p' : Profile) (hm : metricsOK p) (hfreq : 0 ≤ e.frequency.getD 1)
    (h : update_with_feature_usage sqrtFn p e now = some p') :
    metricsOK p' ∧ riskOK p' := by
  rw [update_with_feature_usage, velocityCount_timestamp,
    velocityCount_timestamp] at h
  simp only [Option.some_bind, Option.some.injEq] at h
  subst h
  obtain ⟨ha1, ha2, ha3, ha4, ha5, ha6⟩ := hm
  have htot : 0 ≤ p.feature_usage_metrics.total_frequency + e.frequency.getD 1 :=
    add_nonneg ha4 hfreq
  have havg : (0 : ℚ) ≤ (p.feature_usage_metrics.total_frequency
        + e.frequency.getD 1)
      / ((p.feature_usage_metrics.feature_usage_count + 1 : ℕ) : ℚ) :=
    div_nonneg htot (Nat.cast_nonneg _)
  refine ⟨⟨ha1, ha2, ha3, htot, havg, ?_⟩,
    computeRiskScores_ok p.login_metrics p.transaction_metrics
      p.session_metrics _ ha2 ha3 ?_ havg⟩
  · split
    · exact hs _
    · exact le_refl 0
  · split
    · exact hs _
    · exact le_refl 0

/-- Invariant preservation along any successfully processed event sequence:
from a state satisfying the nonnegativity invariant and risk bounds, any run
of events with nonnegative magnitudes ends (when it does not raise) in a
state satisfying both. -/
theorem processEvents_ok (sqrtFn : ℚ → ℚ) (hs : ∀ q, 0 ≤ sqrtFn q) :
    ∀ (evs : List (EventData × ℚ)) (p : Profile), metricsOK p → riskOK p →
    (∀ x ∈ evs, eventOK x.1 = true) →
    (processEvents sqrtFn p evs).elim True (fun p' => metricsOK p' ∧ riskOK p')
  | [], p, hm, hr, _ => by
    simpa [processEvents] using ⟨hm, hr⟩
  | (ev, now) :: rest, p, hm, hr, hok => by
    rw [processEvents]
    rcases hstep : processEvent sqrtFn p (ev, now) with _ | p₁
    · simp [hstep]
    have h1 : metricsOK p₁ ∧ riskOK p₁ := by
      cases ev with
      | login e => exact update_with_login_ok p e now p₁ hm hstep
      | transaction e =>
        have := hok (EventData.transaction e, now) (by simp)
        simp only [eventOK, decide_eq_true_eq] at this
        exact update_with_transaction_ok p e now p₁ hm this hstep
      | session e =>
        have := hok (EventData.session e, now) (by simp)
        simp only [eventOK, decide_eq_true_eq] at this
        exact update_with_session_ok p e now p₁ hm this hstep
      | feature_usage e =>
        have := hok (EventData.feature_usage e, now) (by simp)
        simp only [eventOK, decide_eq_true_eq] at this
        exact update_with_feature_usage_ok sqrtFn hs p e now p₁ hm this hstep
    simp only [Option.some_bind]
    exact processEvents_ok sqrtFn hs rest p₁ h1.1 h1.2
      (fun x hx => hok x (List.mem_cons_of_mem _ hx))

/-- Running statistics of a pure transaction sequence, from an arbitrary
starting profile: transaction updates never raise, the counter and the total
advance additively, the maximum folds `max` over the amounts, and after at
least one transaction the average is the recomputed quotient. -/
theorem processTx_aux (sqrtFn : ℚ → ℚ) :
    ∀ (l : List (TransactionEvent × ℚ)) (p : Profile),
    ∃ p', processEvents sqrtFn p
        (l.map (fun x => (EventData.transaction x.1, x.2))) = some p'
      ∧ p'.transaction_metrics.total_transactions
          = p.transaction_metrics.total_transactions + l.length
      ∧ p'.transaction_metrics.total_amount
          = p.transaction_metrics.total_amount
            + (l.map (fun x => x.1.amount)).sum
      ∧ p'.transaction_metrics.max_amount
          = (l.map (fun x => x.1.amount)).foldl max
            p.transaction_metrics.max_amount
      ∧ (l = [] → p' = p)
      ∧ (l ≠ [] → p'.transaction_metrics.avg_amount
          = p'.transaction_metrics.total_amount
            / (p'.transaction_metrics.total_transactions : ℚ))
  | [], p => ⟨p, by simp [processEvents], by simp, by simp, by simp,
      fun _ => rfl, by simp⟩
  | (e, now) :: rest, p => by
    rcases hstep : update_with_transaction p e now with _ | p₁
    · rw [update_with_transaction, velocityCount_timestamp,
        velocityCount_timestamp] at hstep
      simp at hstep
    have hrec := hstep
    rw [update_with_transaction, velocityCount_timestamp,
      velocityCount_timestamp] at hrec
    simp only [Option.some_bind, Option.some.injEq] at hrec
    have e1 : p₁.transaction_metrics.total_transactions
        = p.transaction_metrics.total_transactions + 1 := by
      rw [← hrec]
    have e2 : p₁.transaction_metrics.total_amount
        = p.transaction_metrics.total_amount + e.amount := by
      rw [← hrec]
    have e3 : p₁.transaction_metrics.max_amount
        = max p.transaction_metrics.max_amount e.amount := by
      rw [← hrec]
    have e4 : p₁.transaction_metrics.avg_amount
        = (p.transaction_metrics.total_amount + e.amount)
          / ((p.transaction_metrics.total_transactions + 1 : ℕ) : ℚ) := by
      rw [← hrec]
    obtain ⟨p'', hrun, htot, hamt, hmax, hnil, havg⟩ :=
      processTx_aux sqrtFn rest p₁
    refine ⟨p'', ?_, ?_, ?_, ?_, by simp, fun _ => ?_⟩
    · simp only [List.map_cons, processEvents, processEvent, hstep,
        Option.some_bind]
      exact hrun
    · rw [htot, e1, List.length_cons]
      omega
    · rw [hamt, e2, List.map_cons, List.sum_cons]
      ring
    · rw [hmax, e3, List.map_cons, List.foldl_cons]
    · rcases eq_or_ne rest [] with hr | hr
      · subst hr
        have hp := hnil rfl
        subst hp
        rw [e4, e2, e1]
      · exact havg hr

/-! Claim theorems. -/

/-- C1 (amended): for every login, transaction or feature-usage event applied
to any profile, the recomputed 24h and 7d velocity fields equal the number of
same-type records already in history before the event is appended — the event
being processed is excluded — whose recorded wall-clock stamp `t` satisfies
`reference − t ≤ 86400` resp. `604800` seconds, the reference being the
event's own timestamp (records stamped after the reference also count, and
session events are excluded: their scan raises, see C8). -/
theorem C1_thm (sqrtFn : ℚ → ℚ) (p : Profile) (el : LoginEvent)
    (e2 : TransactionEvent) (e3 : FeatureUsageEvent) (n1 n2 n3 : ℚ) :
    ((update_with_login p el n1).map (fun q =>
        (q.login_metrics.login_velocity_24h, q.login_metrics.login_velocity_7d))
      = some (velocitySpec p.historical_changes EventType.login el.timestamp 86400,
          velocitySpec p.historical_changes EventType.login el.timestamp 604800))
    ∧ ((update_with_transaction p e2 n2).map (fun q =>
        (q.transaction_metrics.transaction_velocity_24h,
          q.transaction_metrics.transaction_velocity_7d))
      = some (velocitySpec p.historical_changes EventType.transaction
            e2.timestamp 86400,
          velocitySpec p.historical_changes EventType.transaction
            e2.timestamp 604800))
    ∧ ((update_with_feature_usage sqrtFn p e3 n3).map (fun q =>
        (q.feature_usage_metrics.feature_usage_velocity_24h,
          q.feature_usage_metrics.feature_usage_velocity_7d))
      = some (velocitySpec p.historical_changes EventType.feature_usage
            e3.timestamp 86400,
          velocitySpec p.historical_changes EventType.feature_usage
            e3.timestamp 604800)) := by
  refine ⟨?_, ?_, ?_⟩
  · rw [update_with_login, velocityCount_timestamp, velocityCount_timestamp]
    simp
  · rw [update_with_transaction, velocityCount_timestamp, velocityCount_timestamp]
    simp
  · rw [update_with_feature_usage, velocityCount_timestamp, velocityCount_timestamp]
    simp

/-- C1 counterexample: a single login at t = 0 applied to a fresh profile
(wall clock 0). The claim's count — same-type history entries including the
event being processed, within the 24h window before the reference — is 1,
but the stored `login_velocity_24h` is 0: the scan ran before the event was
appended. -/
theorem C1_cex :
    ((update_with_login (Profile.init sampleUid 0) sampleLogin1 0).map
      (fun q => (q.login_metrics.login_velocity_24h,
        claimVelocity q.historical_changes EventType.login 0 86400)))
      = some (0, 1) := by with_unfolding_all decide

/-- C2 (amended): one login at t = 0 and a second at t = 600 s with the same
fields (each recorded at a wall clock equal to its event time) yield
`total_logins = 2`, `avg_login_interval = 300.0` — the incremental formula
divides the single 600 s gap by the already-incremented login count 2 — and
`login_velocity_24h = 1`, because the scan excludes the login being
processed. -/
theorem C2_thm :
    sampleLoginRun.map (fun p => (p.login_metrics.total_logins,
        p.login_metrics.avg_login_interval, p.login_metrics.login_velocity_24h))
      = some (2, 300, 1) := by with_unfolding_all decide

/-- C2 counterexample: the same run does not produce the claimed triple
`total_logins = 2`, `avg_login_interval = 600.0`, `login_velocity_24h = 2`. -/
theorem C2_cex :
    sampleLoginRun.map (fun p => (p.login_metrics.total_logins,
        p.login_metrics.avg_login_interval, p.login_metrics.login_velocity_24h))
      ≠ some (2, 600, 2) := by with_unfolding_all decide

/-- C3 (amended): for every sequence of N transactions with amounts a_1..a_N
applied to a fresh profile, processing succeeds with
`total_transactions = N`, `total_amount = Σ a_i`, `avg_amount = (Σ a_i)/N`
(the fresh profile's 0 for N = 0), and `max_amount` equal to the maximum of
the amounts **and the initial 0** — `max_amount = max(max_amount, amount)`
folds from the dataclass default `0.0`, so an all-negative sequence yields 0,
not `max(a_i)`. -/
theorem C3_thm (sqrtFn : ℚ → ℚ) (uid : String) (t0 : ℚ)
    (l : List (TransactionEvent × ℚ)) :
    (processEvents sqrtFn (Profile.init uid t0)
        (l.map (fun x => (EventData.transaction x.1, x.2)))).map
      (fun p => (p.transaction_metrics.total_transactions,
        p.transaction_metrics.total_amount,
        p.transaction_metrics.avg_amount,
        p.transaction_metrics.max_amount))
      = some (l.length,
          (l.map (fun x => x.1.amount)).sum,
          (l.map (fun x => x.1.amount)).sum / (l.length : ℚ),
          (l.map (fun x => x.1.amount)).foldl max 0) := by
  obtain ⟨p', hrun, htot, hamt, hmax, hnil, havg⟩ :=
    processTx_aux sqrtFn l (Profile.init uid t0)
  rw [hrun, Option.map_some']
  have h0tot : (Profile.init uid t0).transaction_metrics.total_transactions = 0 := rfl
  have h0amt : (Profile.init uid t0).transaction_metrics.total_amount = 0 := rfl
  have h0max : (Profile.init uid t0).transaction_metrics.max_amount = 0 := rfl
  have h0avg : (Profile.init uid t0).transaction_metrics.avg_amount = 0 := rfl
  rcases eq_or_ne l [] with hl | hl
  · subst hl
    have hp := hnil rfl
    subst hp
    simp [h0tot, h0amt, h0max, h0avg]
  · have htot' : p'.transaction_metrics.total_transactions = l.length := by
      rw [htot, h0tot, Nat.zero_add]
    have hamt' : p'.transaction_metrics.total_amount
        = (l.map (fun x => x.1.amount)).sum := by
      rw [hamt, h0amt, zero_add]
    have hmax' : p'.transaction_metrics.max_amount
        = (l.map (fun x => x.1.amount)).foldl max 0 := by
      rw [hmax, h0max]
    have havg' := havg hl
    rw [htot', hamt'] at havg'
    rw [htot', hamt', hmax', havg']

/-- C3 counterexample: a single transaction of amount −5 on a fresh profile
leaves `max_amount = 0`, not `max(a_i) = −5`. -/
theorem C3_cex :
    ((processEvents (fun q => q) (Profile.init sampleUid 0)
        [(EventData.transaction sampleTxNeg5, 0)]).map
      (fun p => p.transaction_metrics.max_amount)) = some 0
    ∧ ((0 : ℚ) ≠ -5) := by
  constructor
  · with_unfolding_all decide
  · norm_num

/-- C4 (amended): every risk score of every profile reachable by successfully
processing an event sequence lies in [0,1] **provided** every transaction
amount, session duration and feature frequency in the sequence is
nonnegative (and the square root inside `np.std` is nonnegative, as the real
one is). Without that proviso the lower bound fails — see the
counterexample — because `min(1.0, ...)` only clamps from above. -/
theorem C4_thm (sqrtFn : ℚ → ℚ) (uid : String) (t0 : ℚ)
    (evs : List (EventData × ℚ)) (hs : ∀ q, 0 ≤ sqrtFn q)
    (hev : ∀ x ∈ evs, eventOK x.1 = true) :
    (processEvents sqrtFn (Profile.init uid t0) evs).elim True riskOK := by
  have h0m : metricsOK (Profile.init uid t0) := by
    refine ⟨le_refl 0, le_refl 0, le_refl 0, le_refl 0, le_refl 0, le_refl 0⟩
  have h0r : riskOK (Profile.init uid t0) := by
    simp only [riskOK, Profile.init]
    norm_num
  have h := processEvents_ok sqrtFn hs evs (Profile.init uid t0) h0m h0r hev
  rcases hp : processEvents sqrtFn (Profile.init uid t0) evs with _ | p'
  · simp
  · rw [hp] at h
    exact h.2

/-- C4 witness: a concrete all-nonnegative run (one event of each kind,
square root modelled by the absolute value) through `C4_thm`. -/
theorem C4_thm_witness :
    (∀ q : ℚ, 0 ≤ |q|) ∧ (∀ x ∈ sampleEvents, eventOK x.1 = true)
      ∧ (processEvents (fun q => |q|) (Profile.init sampleUid 0)
          sampleEvents).elim True riskOK :=
  ⟨fun q => abs_nonneg q, by with_unfolding_all decide,
    C4_thm (fun q => |q|) sampleUid 0 sampleEvents (fun q => abs_nonneg q)
      (by with_unfolding_all decide)⟩

/-- C4 counterexample: the reachable profile obtained from one transaction of
amount −10000 has `transaction_risk = −3.97 ∉ [0,1]`: the score is only
capped above by `min(1.0, ...)`, never below. -/
theorem C4_cex :
    ((processEvents (fun q => q) (Profile.init sampleUid 0)
        [(EventData.transaction sampleTxNeg, 0)]).map
      (fun p => p.risk_scores.transaction_risk)) = some (-397 / 100)
    ∧ ¬ (0 ≤ (-397 / 100 : ℚ)) := by
  constructor
  · with_unfolding_all decide
  · norm_num

/-- C5: after every login update the three "unique" login counters equal 1 —
each is `len(set([...]))` over the single current event — and after every
transaction update `unique_merchants` equals 1, regardless of the distinct
values in earlier history. -/
theorem C5_thm (p : Profile) (el : LoginEvent) (e2 : TransactionEvent)
    (n1 n2 : ℚ) :
    ((update_with_login p el n1).map (fun q =>
        (q.login_metrics.unique_devices, q.login_metrics.unique_ips,
          q.login_metrics.unique_locations)) = some (1, 1, 1))
    ∧ ((update_with_transaction p e2 n2).map
        (fun q => q.transaction_metrics.unique_merchants) = some 1) := by
  constructor
  · rw [update_with_login, velocityCount_timestamp, velocityCount_timestamp]
    simp
  · rw [update_with_transaction, velocityCount_timestamp, velocityCount_timestamp]
    simp

/-- C6 (amended): a scoring call against a fitted model bank never returns
`is_anomaly = true`. For login, session and feature-usage events (whose
`IsolationForest` models expose `score_samples`) the call returns
`is_anomaly = false` — the decision rule strictly compares the sample's own
raw score against a percentile of the one-element array holding only that
same score, and a strict comparison of a value with itself never holds, for
any model — with confidence equal to the absolute value of the raw outlier
score. For transaction events the call does not return at all: the
transaction model is `LocalOutlierFactor` with the default `novelty=False`,
whose `score_samples` access raises `AttributeError`. -/
theorem C6_thm (b : Bank) (f : EventType → List ℚ → ℚ) (p : Profile)
    (et : EventType) (ed : EventData) (fs : List ℚ) (rows : List (List ℚ))
    (h1 : extract_features p et ed = some fs) (h2 : b.fit et = some rows) :
    (et ≠ EventType.transaction →
      detect_anomaly b f p et ed
        = Except.ok (false,
            |if et = EventType.login then f et fs else -(f et fs)|,
            generate_explanation et fs
              (if et = EventType.login then f et fs else -(f et fs))))
    ∧ (et = EventType.transaction →
      detect_anomaly b f p et ed = Except.error ScoreErr.attributeError) := by
  constructor
  · intro hne
    rw [detect_anomaly, h1, h2]
    simp only [Option.elim_some]
    by_cases het : et = EventType.login
    · simp [het, np_percentile_singleton, lt_self_iff_false]
    · have hss : has_score_samples et = true := by
        cases et <;> simp_all [has_score_samples]
      simp [het, hss, np_percentile_singleton, lt_self_iff_false]
  · intro heq
    subst heq
    rw [detect_anomaly, h1, h2]
    simp [has_score_samples]

/-- C6 witness: two concrete calls against a fitted bank through `C6_thm` —
a login call (constant raw score 5) returning `is_anomaly = false` with
confidence `|5|`, and a transaction call raising `AttributeError`. -/
theorem C6_thm_witness :
    (extract_features (Profile.init sampleUid 0) EventType.login
        (EventData.login sampleLogin1) = some sampleLoginFeatures
      ∧ Bank.fit sampleBank EventType.login = some [[0, 0, 0, 0]]
      ∧ EventType.login ≠ EventType.transaction
      ∧ detect_anomaly sampleBank sampleScore (Profile.init sampleUid 0)
          EventType.login (EventData.login sampleLogin1)
        = Except.ok (false,
            |if EventType.login = EventType.login then
                sampleScore EventType.login sampleLoginFeatures
              else -(sampleScore EventType.login sampleLoginFeatures)|,
            generate_explanation EventType.login sampleLoginFeatures
              (if EventType.login = EventType.login then
                  sampleScore EventType.login sampleLoginFeatures
                else -(sampleScore EventType.login sampleLoginFeatures))))
    ∧ (extract_features (Profile.init sampleUid 0) EventType.transaction
        (EventData.transaction sampleTx2) = some [0, 2, 0, 0]
      ∧ Bank.fit sampleBank EventType.transaction = some [[0, 0, 0, 0]]
      ∧ detect_anomaly sampleBank sampleScore (Profile.init sampleUid 0)
          EventType.transaction (EventData.transaction sampleTx2)
        = Except.error ScoreErr.attributeError) :=
  ⟨⟨by with_unfolding_all decide, by with_unfolding_all decide,
    by with_unfolding_all decide,
    (C6_thm sampleBank sampleScore (Profile.init sampleUid 0) EventType.login
      (EventData.login sampleLogin1) sampleLoginFeatures [[0, 0, 0, 0]]
      (by with_unfolding_all decide) (by with_unfolding_all decide)).1
      (by with_unfolding_all decide)⟩,
   ⟨by with_unfolding_all decide, by with_unfolding_all decide,
    (C6_thm sampleBank sampleScore (Profile.init sampleUid 0)
      EventType.transaction (EventData.transaction sampleTx2) [0, 2, 0, 0]
      [[0, 0, 0, 0]] (by with_unfolding_all decide)
      (by with_unfolding_all decide)).2 rfl⟩⟩

/-- C6 counterexample: on a fitted bank with a nonzero (non-degenerate) raw
score the call returns `is_anomaly = false`, not `true` as the claim
states. -/
theorem C6_cex :
    (detect_anomaly sampleBank sampleScore (Profile.init sampleUid 0)
        EventType.login (EventData.login sampleLogin1)).toOption.map
      (fun r => r.1) = some false := by with_unfolding_all decide

/-- C7: a model bank initialized from zero persisted snapshots never returns
a score: every call fails (first conjunct), and whenever the live feature
extraction itself succeeds the failure is precisely the
model-unavailable error raised by the unfitted scaler's `transform`
(second conjunct). -/
theorem C7_thm :
    (∀ (et : EventType) (f : EventType → List ℚ → ℚ) (p : Profile)
        (ed : EventData),
      (detect_anomaly (initialize_models []) f p et ed).toOption = none)
    ∧ (∀ (et : EventType) (f : EventType → List ℚ → ℚ) (p : Profile)
        (ed : EventData) (fs : List ℚ), extract_features p et ed = some fs →
      detect_anomaly (initialize_models []) f p et ed
        = Except.error ScoreErr.notFitted) := by
  have hfit : ∀ et, Bank.fit (initialize_models []) et = none := by
    intro et
    cases et <;> rfl
  constructor
  · intro et f p ed
    rw [detect_anomaly, hfit]
    rcases hx : extract_features p et ed with _ | fs
    · rfl
    · rfl
  · intro et f p ed fs hx
    rw [detect_anomaly, hx, hfit]
    rfl

/-- C7 witness: a concrete call on the empty-snapshot bank, through
`C7_thm`. -/
theorem C7_thm_witness :
    ((detect_anomaly (initialize_models []) sampleScore
        (Profile.init sampleUid 0) EventType.login
        (EventData.login sampleLogin1)).toOption = none)
    ∧ extract_features (Profile.init sampleUid 0) EventType.login
        (EventData.login sampleLogin1) = some sampleLoginFeatures
    ∧ detect_anomaly (initialize_models []) sampleScore
        (Profile.init sampleUid 0) EventType.login
        (EventData.login sampleLogin1) = Except.error ScoreErr.notFitted :=
  ⟨C7_thm.1 EventType.login sampleScore (Profile.init sampleUid 0)
      (EventData.login sampleLogin1),
    by with_unfolding_all decide,
    C7_thm.2 EventType.login sampleScore (Profile.init sampleUid 0)
      (EventData.login sampleLogin1) sampleLoginFeatures
      (by with_unfolding_all decide)⟩

/-- C8: the session-velocity scan reads `change["start_time"]` on stored
session records, a key the records written by `_record_change` do not have.
A first session event (empty session history) succeeds, but a second session
event on the resulting profile raises `KeyError`: the code_bug failing
input. -/
theorem C8_thm :
    (update_with_session (Profile.init sampleUid 0) sampleSession1 0).isSome
        = true
    ∧ ((update_with_session (Profile.init sampleUid 0) sampleSession1 0).bind
        (fun p => update_with_session p sampleSession2 600)) = none := by
  constructor
  · with_unfolding_all decide
  · with_unfolding_all decide

/-- C9: saving a profile that has processed one event of each kind fails —
the code_bug failing input. Processing all four events succeeds in memory,
but `_save_profile`'s `json.dump` raises `TypeError` because
`login_metrics.last_login_time` holds a raw `datetime`; so the persisted
round trip claimed by the spec cannot even start. -/
theorem C9_thm :
    ((processEvents (fun q => q) (Profile.init sampleUid 0) sampleEvents).map
      (fun p => (save_profile p).toOption)) = some none := by
  with_unfolding_all decide

/-- C10: the transaction feature layouts used at fit time and at scoring time
disagree. For the concrete profile built from transactions of amounts 2 and
4, the persisted-snapshot training row is `[1, 3, 4, 1]`
(velocity, avg_amount, max_amount, merchants) while the live vector for an
incoming amount-100 transaction is `[1, 100, 3, 1]`
(velocity, amount, avg_amount, merchants): positions 1 and 2 differ, so
training and live scoring are not the same feature function. -/
theorem C10_thm :
    ((processEvents (fun q => q) (Profile.init sampleUid 0)
        [(EventData.transaction sampleTx2, 0),
         (EventData.transaction sampleTx4, 0)]).bind fun p =>
      (save_profile p).toOption.bind fun sp =>
        (extract_features p EventType.transaction
            (EventData.transaction sampleTx100)).map fun live =>
          (transaction_train_row sp, live))
      = some ([1, 3, 4, 1], [1, 100, 3, 1])
    ∧ [1, 3, 4, (1 : ℚ)].getD 1 0 ≠ [1, 100, 3, (1 : ℚ)].getD 1 0
    ∧ [1, 3, 4, (1 : ℚ)].getD 2 0 ≠ [1, 100, 3, (1 : ℚ)].getD 2 0 := by
  refine ⟨?_, ?_, ?_⟩
  · with_unfolding_all decide
  · simp
  · simp
